import Mathlib

/-!
Verification of the PANATRI course-platform services (user accounts,
enrollment, video progress, catalog deletion guards, authentication).

The JavaScript services are shallowly embedded: a document database is a
record of three lists (users, courses, videos); every service method is a
pure function from the database (plus request parameters and the current
time, which the source reads via Date.now()) to a result together with the
database as it stands when the method returns.  A method that throws an
ErrorResponse returns .error together with the state as mutated so far
(the store has no cross-document transactions, so writes performed before
a throw persist).  External collaborators (bcrypt, sha256, jwt, S3) are
modelled as opaque injective string encodings and, for S3 deletion, an
explicit effect list.
-/

namespace Panatri

/-- Roles of a user, from userModel.js (enum ['user', 'admin', 'instructor']). -/
inductive Role
  | user
  | instructor
  | admin
deriving DecidableEq

/-- One entry of a video's viewHistory (userModel.js VideoSchema.viewHistory). -/
structure ViewEntry where
  user : Nat
  date : Nat
  progress : Int
  completed : Bool
deriving DecidableEq

/-- One entry of a user's enrolledCourses (userModel.js UserSchema.enrolledCourses). -/
structure Enrollment where
  course : Nat
  progress : Nat
  dateEnrolled : Nat
  lastAccessed : Nat
deriving DecidableEq

/-- A User document (userModel.js UserSchema).  The password field stores the
bcrypt hash (the pre-save hook hashes the raw password). -/
structure User where
  id : Nat
  name : String
  email : String
  password : String
  role : Role
  isActive : Bool
  enrolledCourses : List Enrollment
  resetPasswordToken : Option String
  resetPasswordExpire : Option Nat
deriving DecidableEq

/-- An embedded course module (courseModel.js CourseSchema.modules). -/
structure CourseModule where
  id : Nat
  title : String
  description : String
  order : Int
deriving DecidableEq

/-- An embedded course review (courseModel.js CourseSchema.reviews). -/
structure Review where
  user : Nat
  rating : Nat
  comment : String
  createdAt : Nat
deriving DecidableEq

/-- A Course document (courseModel.js CourseSchema). -/
structure Course where
  id : Nat
  title : String
  slug : String
  description : String
  instructor : Nat
  modules : List CourseModule
  isPublished : Bool
  enrollmentCount : Nat
  reviews : List Review
deriving DecidableEq

/-- A Video document (userModel.js VideoSchema).  moduleRef embeds the
optional field named module in the source. -/
structure Video where
  id : Nat
  title : String
  course : Nat
  moduleRef : Option Nat
  s3Key : String
  order : Int
  isPublished : Bool
  views : Nat
  viewHistory : List ViewEntry
deriving DecidableEq

/-- The document database: the three mongoose collections. -/
structure DB where
  users : List User
  courses : List Course
  videos : List Video
deriving DecidableEq

/-- An ErrorResponse (utils/errorResponse.js): message plus HTTP status code. -/
structure ErrorResponse where
  message : String
  statusCode : Nat
deriving DecidableEq

/-- Side effects on external object storage (config/aws.js deleteFileFromS3). -/
inductive Effect
  | s3Delete (key : String)
deriving DecidableEq

deriving instance DecidableEq for Except

/-- Saving a user document persists it over the stored document with the
same _id (mongoose document.save). -/
def DB.saveUser (db : DB) (u : User) : DB :=
  { db with users := db.users.map (fun w => if w.id == u.id then u else w) }

/-- Saving a course document (mongoose document.save). -/
def DB.saveCourse (db : DB) (c : Course) : DB :=
  { db with courses := db.courses.map (fun w => if w.id == c.id then c else w) }

/-- Saving a video document (mongoose document.save). -/
def DB.saveVideo (db : DB) (v : Video) : DB :=
  { db with videos := db.videos.map (fun w => if w.id == v.id then v else w) }

/-- Overwrite of the first viewHistory entry of the given user, else push of a
new entry: the findIndex-then-assign / push logic of
VideoSchema.methods.updateProgress (userModel.js lines 389-410), expressed as
first-match recursion (findIndex returns the first matching index and the
assignment overwrites exactly that entry in place). -/
def upsertView (userId : Nat) (progress : Int) (completed : Bool) (now : Nat) :
    List ViewEntry → List ViewEntry
  | [] => [{ user := userId, date := now, progress := progress, completed := completed }]
  | e :: rest =>
    if e.user == userId then
      { e with progress := progress, completed := completed, date := now } :: rest
    else
      e :: upsertView userId progress completed now rest

/-- VideoSchema.methods.updateProgress (userModel.js lines 389-410), minus the
save (the caller's database update is modelled with DB.saveVideo). -/
def Video.updateProgress (v : Video) (userId : Nat) (progress : Int)
    (completed : Bool) (now : Nat) : Video :=
  { v with viewHistory := upsertView userId progress completed now v.viewHistory }

/-- Modelled from the spec: "overall progress = round(completedCount /
totalVideos × 100) using standard round-half-up", i.e. floor(100*c/t + 1/2)
over the exact rationals, equal to (200*c + t) / (2*t) in natural division.
This is the specification-side rounding, kept to compare against the
program's IEEE computation jsRoundPct; the two differ at inputs such as
c = 23, t = 40 (58 here, 57 in the program). -/
def roundHalfUpPct (completed total : Nat) : Nat :=
  (200 * completed + total) / (2 * total)

/-- Validation lemma for the specification-side rounding: for total > 0 the
value agrees with floor(100*c/t + 1/2) computed over the rationals. -/
theorem roundHalfUpPct_eq_floor (c t : Nat) (ht : 0 < t) :
    (roundHalfUpPct c t : ℤ) = ⌊(100 * c / t + 1 / 2 : ℚ)⌋ := by
  have h2t : ((2 * t : ℕ) : ℚ) ≠ 0 := by positivity
  have : (100 * c / t + 1 / 2 : ℚ) = ((200 * c + t : ℕ) : ℚ) / ((2 * t : ℕ) : ℚ) := by
    push_cast
    field_simp
    ring
  rw [this, Rat.floor_natCast_div_natCast]
  simp [roundHalfUpPct]

/-- Floor of the base-2 logarithm of a positive natural, by fuel-bounded
halving (correct for inputs below 2^fuel; every use here passes fuel 4096,
far beyond the binary64 range). -/
def log2Nat : Nat → Nat → Nat
  | 0, _ => 0
  | fuel + 1, n => if n ≤ 1 then 0 else log2Nat fuel (n / 2) + 1

/-- Round-to-nearest with ties-to-even of the rational num/den to an
integer: the rounding IEEE 754 applies to each arithmetic result. -/
def rndNearestEven (num den : Nat) : Nat :=
  let q := num / den
  let r := num % den
  if 2 * r < den then q
  else if den < 2 * r then q + 1
  else if q % 2 = 0 then q else q + 1

/-- Rounding of the positive rational n/d to the nearest IEEE binary64 value
(round-to-nearest, ties-to-even, 53-bit significand), returned as an exact
rational numerator/denominator pair.  JavaScript Number arithmetic produces
exactly this value for each division and multiplication on the normal finite
range, which covers every value the progress pipeline can produce
(0 < value ≤ 100 plus integer inputs below 2^53). -/
def fl64 (n d : Nat) : Nat × Nat :=
  if n = 0 then (0, 1)
  else
    let s := log2Nat 4096 d + 2
    let e := log2Nat 4096 ((n * 2 ^ s) / d)
    if e ≤ 52 + s then
      (rndNearestEven (n * 2 ^ (52 + s - e)) d, 2 ^ (52 + s - e))
    else
      (rndNearestEven n (d * 2 ^ (e - s - 52)) * 2 ^ (e - s - 52), 1)

/-- Embedding of Math.round((completedVideos / totalVideos) * 100) as the
source computes it (userService.js line 239) in IEEE binary64 arithmetic:
the quotient c/t is rounded to a double, the product with 100 is rounded to
a double, and Math.round then takes the closest integer to that exact double
value with ties towards +∞, i.e. floor(v + 1/2) on the exact rational v.
Because of the two double roundings this differs from round-half-up of the
exact rational at some inputs, e.g. jsRoundPct 23 40 = 57 while exact
round-half-up gives 58. -/
def jsRoundPct (completed total : Nat) : Nat :=
  let q1 := fl64 completed total
  let q2 := fl64 (q1.1 * 100) q1.2
  (2 * q2.1 + q2.2) / (2 * q2.2)

/-- Result object of VideoService.updateVideoProgress (videoService source in
server.js lines 402-406). -/
structure VideoProgressResult where
  videoId : Nat
  progress : Int
  completed : Bool
deriving DecidableEq

/-- VideoService.updateVideoProgress (server.js lines 372-411): range check,
video lookup, access check via User.findOne with an enrolledCourses.course
filter, then completed := progress >= 90 and the viewHistory upsert. -/
def VideoService.updateVideoProgress (db : DB) (videoId userId : Nat)
    (progress : Int) (now : Nat) : Except ErrorResponse VideoProgressResult × DB :=
  if progress < 0 || progress > 100 then
    (.error { message := "El progreso debe estar entre 0 y 100", statusCode := 400 }, db)
  else
    match db.videos.find? (fun v => v.id == videoId) with
    | none => (.error { message := "Video no encontrado", statusCode := 404 }, db)
    | some video =>
      match db.users.find?
          (fun u => u.id == userId && u.enrolledCourses.any (fun e => e.course == video.course)) with
      | none => (.error { message := "No tienes acceso a este video", statusCode := 403 }, db)
      | some _u =>
        let completed : Bool := decide (progress ≥ 90)
        (.ok { videoId := videoId, progress := progress, completed := completed },
          db.saveVideo (video.updateProgress userId progress completed now))

/-- Decision of whether a video counts as completed for a user in the course
progress recount (userService.js lines 229-237): the viewHistory holds an
entry of that user with completed = true. -/
def userHasCompletedView (userId : Nat) (v : Video) : Bool :=
  v.viewHistory.any (fun view => view.user == userId && view.completed)

/-- Result object of UserService.updateCourseProgress (userService.js lines
254-260). -/
structure CourseProgressResult where
  videoProgress : Int
  videoCompleted : Bool
  courseProgress : Nat
  completedVideos : Nat
  totalVideos : Nat
deriving DecidableEq

/-- Overwrite of progress and lastAccessed on the first enrolledCourses entry
of the given course: the findIndex-then-assign logic of userService.js lines
240-250 expressed as first-match recursion (the code assigns at the index
findIndex returned, i.e. at the first matching entry). -/
def updateEnrollment (courseId : Nat) (progress : Nat) (now : Nat) :
    List Enrollment → List Enrollment
  | [] => []
  | e :: rest =>
    if e.course == courseId then
      { e with progress := progress, lastAccessed := now } :: rest
    else
      e :: updateEnrollment courseId progress now rest

/-- UserService.updateCourseProgress (userService.js lines 199-266): video
lookup by _id and course, video-progress write (before any enrollment check),
user lookup, full recount over every video of the course, Math.round of the
percentage, then update of the user's enrollment entry.  Errors thrown after
the video write leave that write in place (no transaction). -/
def UserService.updateCourseProgress (db : DB) (userId courseId videoId : Nat)
    (progress : Int) (now : Nat) : Except ErrorResponse CourseProgressResult × DB :=
  match db.videos.find? (fun v => v.id == videoId && v.course == courseId) with
  | none => (.error { message := "Video no encontrado para este curso", statusCode := 404 }, db)
  | some video =>
    let completed : Bool := decide (progress ≥ 90)
    let db1 := db.saveVideo (video.updateProgress userId progress completed now)
    match db1.users.find? (fun u => u.id == userId) with
    | none => (.error { message := "Usuario no encontrado", statusCode := 404 }, db1)
    | some user =>
      let allVideos := db1.videos.filter (fun v => v.course == courseId)
      let totalVideos := allVideos.length
      if totalVideos = 0 then
        (.error { message := "El curso no tiene videos disponibles", statusCode := 404 }, db1)
      else
        let completedVideos := allVideos.countP (fun v => userHasCompletedView userId v)
        let overallProgress := jsRoundPct completedVideos totalVideos
        if user.enrolledCourses.any (fun e => e.course == courseId) then
          let user2 := { user with
            enrolledCourses := updateEnrollment courseId overallProgress now user.enrolledCourses }
          (.ok { videoProgress := progress, videoCompleted := completed,
                 courseProgress := overallProgress, completedVideos := completedVideos,
                 totalVideos := totalVideos }, db1.saveUser user2)
        else
          (.error { message := "Usuario no matriculado en este curso", statusCode := 400 }, db1)

/-- Result object of UserService.enrollInCourse (userService.js lines 179-183). -/
structure EnrollResult where
  message : String
  courseTitle : String
  enrollmentDate : Nat
deriving DecidableEq

/-- UserService.enrollInCourse (userService.js lines 143-189): course must
exist and be published, user must exist and not already hold an enrollment;
then an enrollment with progress 0 is pushed (lastAccessed takes its schema
default Date.now) and the course's enrollmentCount is incremented. -/
def UserService.enrollInCourse (db : DB) (userId courseId : Nat) (now : Nat) :
    Except ErrorResponse EnrollResult × DB :=
  match db.courses.find? (fun c => c.id == courseId && c.isPublished) with
  | none => (.error { message := "Curso no encontrado o no disponible", statusCode := 404 }, db)
  | some course =>
    match db.users.find? (fun u => u.id == userId) with
    | none => (.error { message := "Usuario no encontrado", statusCode := 404 }, db)
    | some user =>
      if user.enrolledCourses.any (fun e => e.course == courseId) then
        (.error { message := "El usuario ya está matriculado en este curso", statusCode := 400 }, db)
      else
        let user2 := { user with enrolledCourses := user.enrolledCourses ++
          [{ course := courseId, progress := 0, dateEnrolled := now, lastAccessed := now }] }
        let course2 := { course with enrollmentCount := course.enrollmentCount + 1 }
        (.ok { message := "Matriculado exitosamente", courseTitle := course.title,
               enrollmentDate := now }, (db.saveUser user2).saveCourse course2)

/-- Mongoose lowercase:true setter on UserSchema.email: applied when a
document is saved and (by the default mongoose query-setter behavior) to the
email value of a findOne filter. -/
def emailLower (e : String) : String := String.mk (e.data.map Char.toLower)

/-- Abstract model of the external bcrypt collaborator: an opaque injective
encoding standing for the salted hash (UserSchema pre-save hook). -/
def bcryptHash (pw : String) : String := "bcrypt." ++ pw

/-- Abstract model of bcrypt.compare (UserSchema.methods.matchPassword). -/
def bcryptCompare (entered stored : String) : Bool := stored == bcryptHash entered

/-- Abstract model of crypto.createHash sha256 hex digest, used on password
reset tokens (userModel.js getResetPasswordToken, authService resetPassword). -/
def sha256Hex (s : String) : String := "sha256." ++ s

/-- Abstract model of jwt.sign over the server secret (getSignedJwtToken and
getRefreshToken in userModel.js). -/
def jwtSign (userId : Nat) (kind : String) : String :=
  "jwt." ++ kind ++ "." ++ toString userId

/-- Public user view returned by register and login (authService source in
server.js lines 498-503). -/
structure AuthUserView where
  id : Nat
  name : String
  email : String
  role : Role
deriving DecidableEq

/-- Result object of register and login: user view plus token pair. -/
structure AuthResult where
  user : AuthUserView
  accessToken : String
  refreshToken : String
deriving DecidableEq

/-- AuthService.register (server.js lines 481-511): duplicate-email check via
User.findOne (the schema lowercases the email, so the check is
case-insensitive; a race past it would hit the unique index, which the global
errorHandler also maps to status 400), then User.create with defaults role
user / isActive true and the pre-save bcrypt hash.  newId stands for the
ObjectId mongoose assigns. -/
def AuthService.register (db : DB) (name email password : String) (newId : Nat) :
    Except ErrorResponse AuthResult × DB :=
  match db.users.find? (fun u => u.email == emailLower email) with
  | some _ =>
    (.error { message := "El correo electrónico ya está registrado", statusCode := 400 }, db)
  | none =>
    let user : User :=
      { id := newId, name := name, email := emailLower email,
        password := bcryptHash password, role := Role.user, isActive := true,
        enrolledCourses := [], resetPasswordToken := none, resetPasswordExpire := none }
    (.ok { user := { id := newId, name := name, email := user.email, role := Role.user },
           accessToken := jwtSign newId "access", refreshToken := jwtSign newId "refresh" },
      { db with users := db.users ++ [user] })

/-- AuthService.login (server.js lines 519-564): missing credentials 400,
unknown email 401, deactivated account 403 (checked before the password),
password mismatch 401, else the token pair.  Reads nothing but the user, so
it returns no state. -/
def AuthService.login (db : DB) (email password : String) :
    Except ErrorResponse AuthResult :=
  if email == "" || password == "" then
    .error { message := "Por favor proporcione correo y contraseña", statusCode := 400 }
  else
    match db.users.find? (fun u => u.email == emailLower email) with
    | none => .error { message := "Credenciales inválidas", statusCode := 401 }
    | some user =>
      if !user.isActive then
        .error { message := "Esta cuenta está desactivada, contacte al administrador",
                 statusCode := 403 }
      else if !(bcryptCompare password user.password) then
        .error { message := "Credenciales inválidas", statusCode := 401 }
      else
        .ok { user := { id := user.id, name := user.name, email := user.email, role := user.role },
              accessToken := jwtSign user.id "access", refreshToken := jwtSign user.id "refresh" }

/-- AuthService.forgotPassword (server.js lines 618-639) together with
UserSchema.methods.getResetPasswordToken (userModel.js lines 177-188):
lookup by email, then storage of the sha256 hash of a fresh random token
(rawToken stands for the crypto.randomBytes value) and an expiry of
now + 10 minutes (in milliseconds).  No isActive check occurs anywhere on
this path. -/
def AuthService.forgotPassword (db : DB) (email : String) (rawToken : String) (now : Nat) :
    Except ErrorResponse String × DB :=
  match db.users.find? (fun u => u.email == emailLower email) with
  | none =>
    (.error { message := "No hay ningún usuario con ese correo electrónico", statusCode := 404 }, db)
  | some user =>
    let user2 := { user with resetPasswordToken := some (sha256Hex rawToken),
                             resetPasswordExpire := some (now + 10 * 60 * 1000) }
    (.ok "Se ha enviado un correo electrónico con instrucciones para restablecer su contraseña",
      db.saveUser user2)

/-- AuthService.resetPassword (server.js lines 647-673): lookup by the sha256
hash of the presented token with an unexpired resetPasswordExpire (strictly
greater than Date.now()), then new password (bcrypt-hashed by the pre-save
hook) and clearing of both reset fields.  No isActive check occurs anywhere
on this path. -/
def AuthService.resetPassword (db : DB) (resetToken newPassword : String) (now : Nat) :
    Except ErrorResponse String × DB :=
  match db.users.find? (fun u =>
      u.resetPasswordToken == some (sha256Hex resetToken)
        && u.resetPasswordExpire.any (fun t => decide (now < t))) with
  | none => (.error { message := "Token inválido o expirado", statusCode := 400 }, db)
  | some user =>
    let user2 := { user with password := bcryptHash newPassword,
                             resetPasswordToken := none, resetPasswordExpire := none }
    (.ok "Contraseña restablecida exitosamente", db.saveUser user2)

/-- User.findOne with _id and role admin (courseService.js permission checks). -/
def isAdminUser (db : DB) (userId : Nat) : Bool :=
  (db.users.find? (fun u => u.id == userId && decide (u.role = Role.admin))).isSome

/-- CourseService.deleteModule (courseService.js lines 344-380): course
lookup, permission check, then the guard Video.exists on course and module
before the module is filtered out of the course. -/
def CourseService.deleteModule (db : DB) (courseId moduleId userId : Nat) :
    Except ErrorResponse Course × DB :=
  match db.courses.find? (fun c => c.id == courseId) with
  | none => (.error { message := "Curso no encontrado", statusCode := 404 }, db)
  | some course =>
    if course.instructor != userId && !isAdminUser db userId then
      (.error { message := "No autorizado para modificar este curso", statusCode := 403 }, db)
    else if db.videos.any (fun v => v.course == courseId && v.moduleRef == some moduleId) then
      (.error { message := "No se puede eliminar un módulo con videos asociados",
                statusCode := 400 }, db)
    else
      let course2 := { course with
        modules := course.modules.filter (fun m => m.id != moduleId) }
      (.ok course2, db.saveCourse course2)

/-- CourseService.deleteCourse (courseService.js lines 202-251): course and
user lookup, permission check, the guard User.countDocuments on enrollments,
then Video.deleteMany on the course's videos followed by deletion of the
course.  The source fetches the course's videos but performs no S3 deletion
for them (left as a comment there), so the effect list of the success path is
empty. -/
def CourseService.deleteCourse (db : DB) (courseId userId : Nat) :
    Except ErrorResponse Bool × DB × List Effect :=
  match db.courses.find? (fun c => c.id == courseId) with
  | none => (.error { message := "Curso no encontrado", statusCode := 404 }, db, [])
  | some course =>
    match db.users.find? (fun u => u.id == userId) with
    | none => (.error { message := "Usuario no encontrado", statusCode := 404 }, db, [])
    | some user =>
      if !decide (user.role = Role.admin) && course.instructor != userId then
        (.error { message := "No autorizado para eliminar este curso", statusCode := 403 }, db, [])
      else if (db.users.countP (fun u => u.enrolledCourses.any (fun e => e.course == courseId))) > 0 then
        (.error { message := "No se puede eliminar un curso con estudiantes matriculados",
                  statusCode := 400 }, db, [])
      else
        let db2 := { db with videos := db.videos.filter (fun v => v.course != courseId),
                             courses := db.courses.filter (fun c => c.id != courseId) }
        (.ok true, db2, [])

/-- VideoService.deleteVideo (videoService source in server.js lines 323-363):
unlike deleteCourse, the single-video deletion does release the backing S3
object when the video carries a key. -/
def VideoService.deleteVideo (db : DB) (videoId userId : Nat) :
    Except ErrorResponse Bool × DB × List Effect :=
  match db.videos.find? (fun v => v.id == videoId) with
  | none => (.error { message := "Video no encontrado", statusCode := 404 }, db, [])
  | some video =>
    match db.courses.find? (fun c => c.id == video.course) with
    | none => (.error { message := "Curso no encontrado", statusCode := 404 }, db, [])
    | some course =>
      match db.users.find? (fun u => u.id == userId) with
      | none => (.error { message := "Usuario no encontrado", statusCode := 404 }, db, [])
      | some user =>
        if !decide (user.role = Role.admin) && course.instructor != userId then
          (.error { message := "No autorizado para eliminar este video", statusCode := 403 }, db, [])
        else
          let effects := if video.s3Key != "" then [Effect.s3Delete video.s3Key] else []
          (.ok true, { db with videos := db.videos.filter (fun v => v.id != videoId) }, effects)

/-- Character class of the regex word class backslash-w: ASCII letters,
digits and underscore (the i flag of the source regex adds nothing to it). -/
def isWordChar (c : Char) : Bool :=
  (decide ('a' ≤ c) && decide (c ≤ 'z')) || (decide ('A' ≤ c) && decide (c ≤ 'Z'))
    || (decide ('0' ≤ c) && decide (c ≤ '9')) || c == '_'

/-- Character class of the regex whitespace class backslash-s (the members
relevant to title strings: ASCII whitespace and the no-break space). -/
def isJsWhitespace (c : Char) : Bool :=
  c == ' ' || c == '\t' || c == '\n' || c == '\r' || c == '\x0b' || c == '\x0c'
    || c == '\u00A0'

/-- Stage 1 of the slug pipeline, String.prototype.toLowerCase, applied
characterwise.  Char.toLower lowers ASCII letters and leaves other characters
unchanged; a non-ASCII uppercase letter that JavaScript would lower is in
neither case a word or whitespace character, so stage 2 removes it either
way and the composed pipeline agrees with the source. -/
def jsToLowerCase (s : List Char) : List Char := s.map Char.toLower

/-- Stage 2: replace(non-word-non-space regex, empty string), i.e. keeping
exactly the word and whitespace characters. -/
def stripNonWordSpace (s : List Char) : List Char :=
  s.filter (fun c => isWordChar c || isJsWhitespace c)

/-- Stage 3 worker: replace of every whitespace run by a single hyphen,
emitting the hyphen at the head of each run (prevWs records whether the
previous character belonged to a run). -/
def collapseWs (prevWs : Bool) : List Char → List Char
  | [] => []
  | c :: rest =>
    if isJsWhitespace c then
      if prevWs then collapseWs true rest else '-' :: collapseWs true rest
    else
      c :: collapseWs false rest

/-- Stage 3: replace of every whitespace run by a single hyphen. -/
def collapseWhitespaceToHyphen (l : List Char) : List Char := collapseWs false l

/-- Slug derivation of the CourseSchema pre-save middleware (courseModel.js
lines 172-180): title.toLowerCase().replace(non-word-non-space, empty)
.replace(whitespace-run, hyphen). -/
def slugify (title : String) : String :=
  String.mk (collapseWhitespaceToHyphen (stripNonWordSpace (jsToLowerCase title.data)))

/-- The CourseSchema pre-save hook: when the title is modified the slug is
recomputed from it, otherwise the document is saved unchanged. -/
def Course.applyTitlePreSave (c : Course) (titleModified : Bool) : Course :=
  if titleModified then { c with slug := slugify c.title } else c

/-! Helper lemmas shared by the claim theorems. -/

@[simp] theorem updateProgress_id (v : Video) (u : Nat) (p : Int) (c : Bool) (t : Nat) :
    (v.updateProgress u p c t).id = v.id := rfl

@[simp] theorem updateProgress_course (v : Video) (u : Nat) (p : Int) (c : Bool) (t : Nat) :
    (v.updateProgress u p c t).course = v.course := rfl

@[simp] theorem updateProgress_viewHistory (v : Video) (u : Nat) (p : Int) (c : Bool) (t : Nat) :
    (v.updateProgress u p c t).viewHistory = upsertView u p c t v.viewHistory := rfl

/-- Finding by a predicate after an id-keyed replacement: when the original
find succeeds and the replacement satisfies the predicate, the find on the
replaced list returns the replacement. -/
theorem find?_map_replace {α : Type} (key : α → Nat) (pred : α → Bool) (v v1 : α)
    (l : List α) (hfind : l.find? pred = some v) (hkey : key v1 = key v)
    (hpred : pred v1 = true) :
    (l.map (fun w => if key w == key v1 then v1 else w)).find? pred = some v1 := by
  induction l with
  | nil => simp at hfind
  | cons a as ih =>
    by_cases ha : pred a
    · rw [List.find?_cons_of_pos _ ha] at hfind
      injection hfind with hv
      subst hv
      simp only [List.map_cons, hkey, beq_self_eq_true, if_pos rfl]
      exact List.find?_cons_of_pos _ hpred
    · rw [List.find?_cons_of_neg _ ha] at hfind
      simp only [List.map_cons]
      by_cases hk : key a == key v1
      · rw [if_pos hk]
        exact List.find?_cons_of_pos _ hpred
      · rw [if_neg hk, List.find?_cons_of_neg _ ha]
        exact ih hfind

/-- Two id-keyed replacements with the same key collapse to the second. -/
theorem map_replace_replace {α : Type} (key : α → Nat) (v1 v2 : α)
    (h : key v2 = key v1) (l : List α) :
    ((l.map (fun w => if key w == key v1 then v1 else w)).map
        (fun w => if key w == key v2 then v2 else w))
      = l.map (fun w => if key w == key v2 then v2 else w) := by
  rw [List.map_map]
  apply List.map_congr_left
  intro w _
  by_cases hk : key w == key v1
  · have hw : key w = key v1 := eq_of_beq hk
    simp [Function.comp_apply, hw, h]
  · have hw : key w ≠ key v1 := by simpa using hk
    simp [Function.comp_apply, h, hw]

/-- Saving twice with the same _id keeps only the second save (mongoose
overwrites the stored document). -/
theorem saveVideo_saveVideo (db : DB) (v1 v2 : Video) (h : v2.id = v1.id) :
    (db.saveVideo v1).saveVideo v2 = db.saveVideo v2 := by
  simp only [DB.saveVideo]
  rw [map_replace_replace Video.id v1 v2 h db.videos]

/-- Saving a user twice with the same _id keeps only the second save. -/
theorem saveUser_saveUser (db : DB) (u1 u2 : User) (h : u2.id = u1.id) :
    (db.saveUser u1).saveUser u2 = db.saveUser u2 := by
  simp only [DB.saveUser]
  rw [map_replace_replace User.id u1 u2 h db.users]

@[simp] theorem saveVideo_users (db : DB) (v : Video) : (db.saveVideo v).users = db.users := rfl

@[simp] theorem saveVideo_courses (db : DB) (v : Video) : (db.saveVideo v).courses = db.courses := rfl

@[simp] theorem saveUser_videos (db : DB) (u : User) : (db.saveUser u).videos = db.videos := rfl

@[simp] theorem saveUser_courses (db : DB) (u : User) : (db.saveUser u).courses = db.courses := rfl

/-- Saving a user and then a video is saving the video and then the user:
the two writes touch distinct collections. -/
theorem saveUser_saveVideo_comm (db : DB) (u : User) (v : Video) :
    (db.saveUser u).saveVideo v = (db.saveVideo v).saveUser u := rfl

/-- The viewHistory upsert is idempotent up to the last write: a second upsert
of the same user overwrites everything the first wrote. -/
theorem upsertView_upsertView (l : List ViewEntry) (u : Nat) (p q : Int)
    (b c : Bool) (t1 t2 : Nat) :
    upsertView u q c t2 (upsertView u p b t1 l) = upsertView u q c t2 l := by
  induction l with
  | nil => simp [upsertView]
  | cons e rest ih =>
    by_cases h : e.user == u
    · simp [upsertView, h]
    · simp only [upsertView, h, Bool.false_eq_true, if_neg, ite_false]
      rw [List.cons.injEq]
      exact ⟨rfl, ih⟩

/-- After an upsert with the at-most-one-entry invariant, the user's entries
are exactly the single upserted one. -/
theorem upsertView_filter_user (l : List ViewEntry) (u : Nat) (p : Int)
    (c : Bool) (t : Nat)
    (hone : (l.filter (fun e => e.user == u)).length ≤ 1) :
    (upsertView u p c t l).filter (fun e => e.user == u)
      = [{ user := u, date := t, progress := p, completed := c }] := by
  induction l with
  | nil => simp [upsertView]
  | cons e rest ih =>
    by_cases h : e.user == u
    · have hu : e.user = u := eq_of_beq h
      have hrest : rest.filter (fun x => x.user == u) = [] := by
        simp only [List.filter_cons, h, if_pos, List.length_cons] at hone
        have h0 : (rest.filter (fun x => x.user == u)).length = 0 := by omega
        simpa [List.length_eq_zero] using h0
      simp [upsertView, List.filter_cons, h, hrest, hu]
    · have hrest : (rest.filter (fun x => x.user == u)).length ≤ 1 := by
        simpa [List.filter_cons, h] using hone
      simp only [upsertView, h, Bool.false_eq_true, if_neg, ite_false, List.filter_cons]
      simpa [h] using ih hrest

/-- Completion counting ignores the date field, so upserts differing only in
their timestamp produce the same any-completed verdict. -/
theorem any_completed_upsert_date (l : List ViewEntry) (u w : Nat) (p : Int)
    (c : Bool) (t1 t2 : Nat) :
    ((upsertView u p c t1 l).any (fun e => e.user == w && e.completed))
      = ((upsertView u p c t2 l).any (fun e => e.user == w && e.completed)) := by
  induction l with
  | nil => simp [upsertView]
  | cons e rest ih =>
    by_cases h : e.user == u
    · simp [upsertView, h]
    · simp only [upsertView, h, Bool.false_eq_true, if_neg, ite_false, List.any_cons]
      rw [ih]

/-- The enrollment overwrite is idempotent up to the last write. -/
theorem updateEnrollment_updateEnrollment (l : List Enrollment) (cid : Nat)
    (p q : Nat) (t1 t2 : Nat) :
    updateEnrollment cid q t2 (updateEnrollment cid p t1 l)
      = updateEnrollment cid q t2 l := by
  induction l with
  | nil => simp [updateEnrollment]
  | cons e rest ih =>
    by_cases h : e.course == cid
    · simp [updateEnrollment, h]
    · simp only [updateEnrollment, h, Bool.false_eq_true, if_neg, ite_false]
      rw [List.cons.injEq]
      exact ⟨rfl, ih⟩

/-- The enrollment overwrite does not move nor retarget entries: the course
references are untouched. -/
theorem updateEnrollment_map_course (l : List Enrollment) (cid p t : Nat) :
    (updateEnrollment cid p t l).map (fun e => e.course) = l.map (fun e => e.course) := by
  induction l with
  | nil => simp [updateEnrollment]
  | cons e rest ih =>
    by_cases h : e.course == cid
    · simp [updateEnrollment, h]
    · simp only [updateEnrollment, h, Bool.false_eq_true, if_neg, ite_false, List.map_cons]
      rw [ih]

/-- An any-test on the course reference is preserved by the enrollment
overwrite. -/
theorem updateEnrollment_any_course (l : List Enrollment) (cid p t c2 : Nat) :
    ((updateEnrollment cid p t l).any (fun e => e.course == c2))
      = (l.any (fun e => e.course == c2)) := by
  induction l with
  | nil => simp [updateEnrollment]
  | cons e rest ih =>
    by_cases h : e.course == cid
    · simp [updateEnrollment, h, eq_of_beq h]
    · simp only [updateEnrollment, h, Bool.false_eq_true, if_neg, ite_false, List.any_cons]
      rw [ih]

/-- When an enrollment for the course exists, the overwrite leaves an entry of
that course holding exactly the written progress and timestamp. -/
theorem updateEnrollment_mem (l : List Enrollment) (cid p t : Nat)
    (h : l.any (fun e => e.course == cid) = true) :
    ∃ e ∈ updateEnrollment cid p t l,
      e.course = cid ∧ e.progress = p ∧ e.lastAccessed = t := by
  induction l with
  | nil => simp at h
  | cons e rest ih =>
    by_cases he : e.course == cid
    · refine ⟨{ e with progress := p, lastAccessed := t }, ?_, eq_of_beq he, rfl, rfl⟩
      simp [updateEnrollment, he]
    · have hrest : rest.any (fun e => e.course == cid) = true := by
        simpa [List.any_cons, he] using h
      obtain ⟨x, hx, hxc⟩ := ih hrest
      refine ⟨x, ?_, hxc⟩
      simp only [updateEnrollment, he, Bool.false_eq_true, if_neg, ite_false]
      exact List.mem_cons_of_mem _ hx

/-! Claim C4: enrollment. -/

/-- Claim C4: for every user and course, Enroll fails with NotFound (404) when
the course is absent or unpublished; fails with BadRequest (400) when the user
already has an enrollment for that course, leaving the database untouched; and
otherwise appends exactly one enrollment entry with progress 0 to the user and
increments the course's enrollment counter by one. -/
theorem enrollInCourse_spec :
    (∀ (db : DB) (userId courseId now : Nat),
      db.courses.find? (fun c => c.id == courseId && c.isPublished) = none →
      UserService.enrollInCourse db userId courseId now
        = (.error { message := "Curso no encontrado o no disponible", statusCode := 404 }, db))
  ∧ (∀ (db : DB) (userId courseId now : Nat) (course : Course) (user : User),
      db.courses.find? (fun c => c.id == courseId && c.isPublished) = some course →
      db.users.find? (fun u => u.id == userId) = some user →
      user.enrolledCourses.any (fun e => e.course == courseId) = true →
      UserService.enrollInCourse db userId courseId now
        = (.error { message := "El usuario ya está matriculado en este curso",
                    statusCode := 400 }, db))
  ∧ (∀ (db : DB) (userId courseId now : Nat) (course : Course) (user : User),
      db.courses.find? (fun c => c.id == courseId && c.isPublished) = some course →
      db.users.find? (fun u => u.id == userId) = some user →
      user.enrolledCourses.any (fun e => e.course == courseId) = false →
      UserService.enrollInCourse db userId courseId now
        = (.ok { message := "Matriculado exitosamente", courseTitle := course.title,
                 enrollmentDate := now },
           (db.saveUser { user with enrolledCourses := user.enrolledCourses
               ++ [{ course := courseId, progress := 0, dateEnrolled := now,
                     lastAccessed := now }] }).saveCourse
             { course with enrollmentCount := course.enrollmentCount + 1 })) := by
  refine ⟨?_, ?_, ?_⟩
  · intro db userId courseId now h
    simp [UserService.enrollInCourse, h]
  · intro db userId courseId now course user hc hu he
    simp [UserService.enrollInCourse, hc, hu, he]
  · intro db userId courseId now course user hc hu he
    simp [UserService.enrollInCourse, hc, hu, he]

/-- Fixture of claim C4: the stored user and published course, and the
database holding exactly them. -/
def uC4 : User := ⟨1, "ana", "ana@x.com", "bcrypt.pw", Role.user, true, [], none, none⟩

/-- Fixture course of claim C4. -/
def cC4 : Course := ⟨10, "Pan", "pan", "curso de pan", 2, [], true, 0, []⟩

/-- Fixture database of claim C4. -/
def dbC4 : DB := { users := [uC4], courses := [cC4], videos := [] }

/-- Witness of claim C4 at the fixture: fresh enrollment succeeds with
progress 0 and counter 1; a second attempt fails with 400 and changes
nothing; an unpublished course id fails with 404. -/
theorem enrollInCourse_spec_witness :
    (UserService.enrollInCourse dbC4 1 10 7
      = (.ok { message := "Matriculado exitosamente", courseTitle := "Pan",
               enrollmentDate := 7 },
         (dbC4.saveUser { uC4 with enrolledCourses :=
             [{ course := 10, progress := 0, dateEnrolled := 7, lastAccessed := 7 }] }).saveCourse
           { cC4 with enrollmentCount := 1 }))
  ∧ (UserService.enrollInCourse (UserService.enrollInCourse dbC4 1 10 7).2 1 10 8
      = (.error { message := "El usuario ya está matriculado en este curso",
                  statusCode := 400 }, (UserService.enrollInCourse dbC4 1 10 7).2))
  ∧ (UserService.enrollInCourse dbC4 1 99 7
      = (.error { message := "Curso no encontrado o no disponible", statusCode := 404 }, dbC4)) := by
  refine ⟨?_, ?_, ?_⟩
  · exact enrollInCourse_spec.2.2 dbC4 1 10 7 cC4 uC4
      (by decide) (by decide) (by decide)
  · exact enrollInCourse_spec.2.1 (UserService.enrollInCourse dbC4 1 10 7).2 1 10 8
      { cC4 with enrollmentCount := 1 }
      { uC4 with enrolledCourses :=
          [{ course := 10, progress := 0, dateEnrolled := 7, lastAccessed := 7 }] }
      (by decide) (by decide) (by decide)
  · exact enrollInCourse_spec.1 dbC4 1 99 7 (by decide)

/-! Claim C8: duplicate registration. -/

/-- Fixture of claim C8: one registered user with a lowercase stored email. -/
def dbC8 : DB :=
  { users := [⟨1, "ana", "ana@x.com", "bcrypt.pw", Role.user, true, [], none, none⟩],
    courses := [], videos := [] }

/-- Counterexample of claim C8 as stated: re-registering an existing email
(submitted in different letter case) fails and creates no user, but the
status code is 400, not the claimed 409. -/
theorem register_duplicate_counterexample :
    (AuthService.register dbC8 "otra" "ANA@X.com" "pw2" 2).1
        = .error { message := "El correo electrónico ya está registrado", statusCode := 400 }
  ∧ (AuthService.register dbC8 "otra" "ANA@X.com" "pw2" 2).2 = dbC8
  ∧ (400 : Nat) ≠ 409 := by
  exact ⟨by decide, by decide, by decide⟩

/-- Claim C8 as amended: for every registration attempt whose email is already
registered, regardless of letter case, registration fails with status 400
(the service throws 400 and the errorHandler also maps a duplicate-key fault
to 400) and no new user is created. -/
theorem register_duplicate_amended (db : DB) (name email password : String)
    (newId : Nat) (u : User)
    (h : db.users.find? (fun x => x.email == emailLower email) = some u) :
    AuthService.register db name email password newId
      = (.error { message := "El correo electrónico ya está registrado", statusCode := 400 },
         db) := by
  simp [AuthService.register, h]

/-- Witness of the amended claim C8 at the fixture. -/
theorem register_duplicate_amended_witness :
    AuthService.register dbC8 "otra" "ANA@X.com" "pw2" 2
      = (.error { message := "El correo electrónico ya está registrado", statusCode := 400 },
         dbC8) :=
  register_duplicate_amended dbC8 "otra" "ANA@X.com" "pw2" 2
    ⟨1, "ana", "ana@x.com", "bcrypt.pw", Role.user, true, [], none, none⟩ (by decide)

/-! Claim C9: login indistinguishability. -/

/-- Claim C9: a login with the email of an existing active account but a wrong
password and a login with an unknown email both fail with the same status
code 401, so the status code alone does not reveal whether an email is
registered; a login to a deactivated account fails with 403 instead. -/
theorem login_enumeration_spec :
    (∀ (db : DB) (email password : String),
      email ≠ "" → password ≠ "" →
      db.users.find? (fun u => u.email == emailLower email) = none →
      AuthService.login db email password
        = .error { message := "Credenciales inválidas", statusCode := 401 })
  ∧ (∀ (db : DB) (email password : String) (u : User),
      email ≠ "" → password ≠ "" →
      db.users.find? (fun u => u.email == emailLower email) = some u →
      u.isActive = true → bcryptCompare password u.password = false →
      AuthService.login db email password
        = .error { message := "Credenciales inválidas", statusCode := 401 })
  ∧ (∀ (db : DB) (email password : String) (u : User),
      email ≠ "" → password ≠ "" →
      db.users.find? (fun u => u.email == emailLower email) = some u →
      u.isActive = false →
      ∃ e, AuthService.login db email password = .error e ∧ e.statusCode = 403) := by
  refine ⟨?_, ?_, ?_⟩
  · intro db email password he hp h
    simp [AuthService.login, he, hp, h]
  · intro db email password u he hp h hact hmatch
    simp [AuthService.login, he, hp, h, hact, hmatch]
  · intro db email password u he hp h hact
    refine ⟨{ message := "Esta cuenta está desactivada, contacte al administrador",
              statusCode := 403 }, ?_, rfl⟩
    simp [AuthService.login, he, hp, h, hact]

/-- Fixture of claim C9: one active and one deactivated account. -/
def dbC9 : DB :=
  { users := [⟨1, "ana", "ana@x.com", bcryptHash "secret1!", Role.user, true, [], none, none⟩,
              ⟨2, "eva", "eva@x.com", bcryptHash "secret2!", Role.user, false, [], none, none⟩],
    courses := [], videos := [] }

/-- Witness of claim C9 at the fixture: wrong password and unknown email both
yield 401; the deactivated account yields 403. -/
theorem login_enumeration_spec_witness :
    (AuthService.login dbC9 "ana@x.com" "wrongpass"
        = .error { message := "Credenciales inválidas", statusCode := 401 })
  ∧ (AuthService.login dbC9 "nadie@x.com" "whatever"
        = .error { message := "Credenciales inválidas", statusCode := 401 })
  ∧ (∃ e, AuthService.login dbC9 "eva@x.com" "secret2!" = .error e ∧ e.statusCode = 403) := by
  refine ⟨?_, ?_, ?_⟩
  · exact login_enumeration_spec.2.1 dbC9 "ana@x.com" "wrongpass"
      ⟨1, "ana", "ana@x.com", bcryptHash "secret1!", Role.user, true, [], none, none⟩
      (by decide) (by decide) (by decide) (by decide) (by decide)
  · exact login_enumeration_spec.1 dbC9 "nadie@x.com" "whatever"
      (by decide) (by decide) (by decide)
  · exact login_enumeration_spec.2.2 dbC9 "eva@x.com" "secret2!"
      ⟨2, "eva", "eva@x.com", bcryptHash "secret2!", Role.user, false, [], none, none⟩
      (by decide) (by decide) (by decide) (by decide)

/-! Claim C10: password reset ignores the active flag. -/

/-- Claim C10: the password-reset flow never consults the active flag: for
every user the lookup succeeds on (including one with active = false),
forgotPassword stores the hashed reset token with a 10-minute expiry, and
resetPassword with a matching unexpired token sets the new password and
clears both reset fields. -/
theorem passwordReset_ignoresActive_spec :
    (∀ (db : DB) (email rawToken : String) (now : Nat) (u : User),
      db.users.find? (fun x => x.email == emailLower email) = some u →
      AuthService.forgotPassword db email rawToken now
        = (.ok "Se ha enviado un correo electrónico con instrucciones para restablecer su contraseña",
           db.saveUser { u with resetPasswordToken := some (sha256Hex rawToken),
                                resetPasswordExpire := some (now + 10 * 60 * 1000) }))
  ∧ (∀ (db : DB) (tok newPw : String) (now : Nat) (u : User),
      db.users.find? (fun x => x.resetPasswordToken == some (sha256Hex tok)
          && x.resetPasswordExpire.any (fun t => decide (now < t))) = some u →
      AuthService.resetPassword db tok newPw now
        = (.ok "Contraseña restablecida exitosamente",
           db.saveUser { u with password := bcryptHash newPw,
                                resetPasswordToken := none,
                                resetPasswordExpire := none })) := by
  refine ⟨?_, ?_⟩
  · intro db email rawToken now u h
    simp [AuthService.forgotPassword, h]
  · intro db tok newPw now u h
    simp [AuthService.resetPassword, h]

/-- Fixture of claim C10: a single deactivated account. -/
def dbC10 : DB :=
  { users := [⟨3, "leo", "leo@x.com", bcryptHash "old", Role.user, false, [], none, none⟩],
    courses := [], videos := [] }

/-- Witness of claim C10 at the fixture: both reset steps run to completion
for a deactivated account exactly as for an active one. -/
theorem passwordReset_ignoresActive_spec_witness :
    (AuthService.forgotPassword dbC10 "leo@x.com" "tok" 1000
      = (.ok "Se ha enviado un correo electrónico con instrucciones para restablecer su contraseña",
         dbC10.saveUser ⟨3, "leo", "leo@x.com", bcryptHash "old", Role.user, false, [],
           some (sha256Hex "tok"), some 601000⟩))
  ∧ (AuthService.resetPassword (AuthService.forgotPassword dbC10 "leo@x.com" "tok" 1000).2
        "tok" "nueva" 2000
      = (.ok "Contraseña restablecida exitosamente",
         (AuthService.forgotPassword dbC10 "leo@x.com" "tok" 1000).2.saveUser
           ⟨3, "leo", "leo@x.com", bcryptHash "nueva", Role.user, false, [], none, none⟩)) := by
  refine ⟨?_, ?_⟩
  · exact passwordReset_ignoresActive_spec.1 dbC10 "leo@x.com" "tok" 1000
      ⟨3, "leo", "leo@x.com", bcryptHash "old", Role.user, false, [], none, none⟩ (by decide)
  · exact passwordReset_ignoresActive_spec.2
      (AuthService.forgotPassword dbC10 "leo@x.com" "tok" 1000).2 "tok" "nueva" 2000
      ⟨3, "leo", "leo@x.com", bcryptHash "old", Role.user, false, [],
        some (sha256Hex "tok"), some 601000⟩ (by decide)

/-! Claim C7: slug derivation. -/

/-- Characters surviving the whitespace-run collapse are the emitted hyphens
and the non-whitespace characters of the input. -/
theorem collapseWs_chars (l : List Char) (b : Bool) (ch : Char)
    (h : ch ∈ collapseWs b l) :
    ch = '-' ∨ (ch ∈ l ∧ isJsWhitespace ch = false) := by
  induction l generalizing b with
  | nil => simp [collapseWs] at h
  | cons c rest ih =>
    by_cases hw : isJsWhitespace c
    · simp only [collapseWs, hw, if_pos] at h
      by_cases hb : b
      · rw [if_pos hb] at h
        rcases ih true h with h1 | ⟨h2, h3⟩
        · exact Or.inl h1
        · exact Or.inr ⟨List.mem_cons_of_mem _ h2, h3⟩
      · rw [if_neg hb] at h
        rcases List.mem_cons.mp h with h1 | h1
        · exact Or.inl h1
        · rcases ih true h1 with h2 | ⟨h3, h4⟩
          · exact Or.inl h2
          · exact Or.inr ⟨List.mem_cons_of_mem _ h3, h4⟩
    · simp only [collapseWs, hw, Bool.false_eq_true, if_neg, ite_false] at h
      rcases List.mem_cons.mp h with h1 | h1
      · subst h1
        exact Or.inr ⟨List.mem_cons_self _ _, by simpa using hw⟩
      · rcases ih false h1 with h2 | ⟨h3, h4⟩
        · exact Or.inl h2
        · exact Or.inr ⟨List.mem_cons_of_mem _ h3, h4⟩

/-- Claim C7: whenever the title is set or changed, the slug equals the title
lowercased, then with the non-word non-space characters stripped, then with
each whitespace run replaced by a single hyphen; accented characters are
dropped rather than transliterated, so the title of the testable property
yields the slug without its accented letter; and every character of a derived
slug is a word character or a hyphen. -/
theorem slug_spec :
    (∀ (c : Course), (c.applyTitlePreSave true).slug
        = String.mk (collapseWhitespaceToHyphen (stripNonWordSpace (jsToLowerCase c.title.data))))
  ∧ slugify "Panadería Artesanal!!" = "panadera-artesanal"
  ∧ (∀ (t : String) (ch : Char), ch ∈ (slugify t).data →
      isWordChar ch = true ∨ ch = '-') := by
  refine ⟨?_, by decide, ?_⟩
  · intro c
    simp [Course.applyTitlePreSave, slugify]
  · intro t ch h
    have h2 : ch ∈ collapseWs false (stripNonWordSpace (jsToLowerCase t.data)) := h
    rcases collapseWs_chars _ false ch h2 with h3 | ⟨h4, h5⟩
    · exact Or.inr h3
    · have h6 := (List.mem_filter.mp h4).2
      rcases Bool.or_eq_true_iff.mp h6 with h7 | h7
      · exact Or.inl h7
      · rw [h7] at h5
        cases h5

/-- Witness of claim C7 at a concrete course: the pre-save hook writes
exactly the pipeline result, and each character of the derived slug of the
testable-property title is a word character or hyphen. -/
theorem slug_spec_witness :
    ((⟨10, "Panadería Artesanal!!", "", "curso de pan", 2, [], true, 0, []⟩ :
        Course).applyTitlePreSave true).slug
      = String.mk (collapseWhitespaceToHyphen (stripNonWordSpace
          (jsToLowerCase ("Panadería Artesanal!!" : String).data)))
  ∧ (isWordChar 'p' = true ∨ 'p' = '-') := by
  refine ⟨?_, ?_⟩
  · exact slug_spec.1 ⟨10, "Panadería Artesanal!!", "", "curso de pan", 2, [], true, 0, []⟩
  · exact slug_spec.2.2 "Panadería Artesanal!!" 'p' (by decide)

/-! Claim C2: single view-history entry per user. -/

/-- Claim C2: for every user, video and submitted progress value p in range,
updating video progress on a video holding at most one view-history entry for
that user leaves exactly one entry for that user, whose stored progress is p
and whose completed flag equals the decision p >= 90. -/
theorem updateVideoProgress_single_entry (db : DB) (videoId userId : Nat)
    (p : Int) (now : Nat) (v : Video)
    (hp : 0 ≤ p ∧ p ≤ 100)
    (hv : db.videos.find? (fun w => w.id == videoId) = some v)
    (hacc : (db.users.find? (fun u => u.id == userId
        && u.enrolledCourses.any (fun e => e.course == v.course))).isSome = true)
    (hone : (v.viewHistory.filter (fun e => e.user == userId)).length ≤ 1) :
    ∃ r db2, VideoService.updateVideoProgress db videoId userId p now = (.ok r, db2)
      ∧ r.progress = p ∧ r.completed = decide (p ≥ 90)
      ∧ ∃ v2, db2.videos.find? (fun w => w.id == videoId) = some v2
        ∧ v2.viewHistory.filter (fun e => e.user == userId)
            = [{ user := userId, date := now, progress := p, completed := decide (p ≥ 90) }] := by
  have hp1 : ¬(p < 0) := by omega
  have hp2 : ¬(p > 100) := by omega
  obtain ⟨u, hu⟩ := Option.isSome_iff_exists.mp hacc
  have hres : VideoService.updateVideoProgress db videoId userId p now
      = (.ok { videoId := videoId, progress := p, completed := decide (p ≥ 90) },
         db.saveVideo (v.updateProgress userId p (decide (p ≥ 90)) now)) := by
    simp [VideoService.updateVideoProgress, hp1, hp2, hv, hu]
  refine ⟨_, _, hres, rfl, rfl,
    v.updateProgress userId p (decide (p ≥ 90)) now, ?_, ?_⟩
  · have hpv := List.find?_some hv
    exact find?_map_replace Video.id (fun w => w.id == videoId) v
      (v.updateProgress userId p (decide (p ≥ 90)) now) db.videos hv rfl hpv
  · exact upsertView_filter_user v.viewHistory userId p (decide (p ≥ 90)) now hone

/-- Fixture of claim C2: an enrolled user and a course video with an empty
view history. -/
def dbC2 : DB :=
  { users := [⟨1, "ana", "ana@x.com", "bcrypt.pw", Role.user, true,
               [{ course := 10, progress := 0, dateEnrolled := 1, lastAccessed := 1 }],
               none, none⟩],
    courses := [⟨10, "Pan", "pan", "curso de pan", 2, [], true, 1, []⟩],
    videos := [⟨5, "masa", 10, none, "k5", 1, true, 0, []⟩] }

/-- Witness of claim C2: submitting 89 and then 90 from the same user on the
same video leaves a single view-history entry holding progress 90 with
completed true. -/
theorem updateVideoProgress_single_entry_witness :
    ∃ r db2, VideoService.updateVideoProgress
        (VideoService.updateVideoProgress dbC2 5 1 89 11).2 5 1 90 12 = (.ok r, db2)
      ∧ r.progress = 90 ∧ r.completed = decide ((90 : Int) ≥ 90)
      ∧ ∃ v2, db2.videos.find? (fun w => w.id == 5) = some v2
        ∧ v2.viewHistory.filter (fun e => e.user == 1)
            = [{ user := 1, date := 12, progress := 90, completed := decide ((90 : Int) ≥ 90) }] := by
  exact updateVideoProgress_single_entry (VideoService.updateVideoProgress dbC2 5 1 89 11).2
    5 1 90 12 ⟨5, "masa", 10, none, "k5", 1, true, 0, [⟨1, 11, 89, false⟩]⟩
    (by decide) (by decide) (by decide) (by decide)

/-! Claim C5: enrollment check on progress updates. -/

/-- Finding a video of the course guarantees the recount set stays nonempty
after the video write. -/
theorem saveVideo_filter_course_ne (db : DB) (videoId courseId uid : Nat)
    (p : Int) (c : Bool) (t : Nat) (v : Video)
    (hv : db.videos.find? (fun w => w.id == videoId && w.course == courseId) = some v) :
    ((db.saveVideo (v.updateProgress uid p c t)).videos.filter
        (fun w => w.course == courseId)).length ≠ 0 := by
  have hmem : v ∈ db.videos := List.mem_of_find?_eq_some hv
  have hpred := List.find?_some hv
  have hco : (v.course == courseId) = true := by
    have h2 : (v.id == videoId && v.course == courseId) = true := hpred
    exact (Bool.and_eq_true_iff.mp h2).2
  have hmem2 : v.updateProgress uid p c t
      ∈ (db.saveVideo (v.updateProgress uid p c t)).videos := by
    refine List.mem_map.mpr ⟨v, hmem, ?_⟩
    simp
  have hmem3 : v.updateProgress uid p c t
      ∈ (db.saveVideo (v.updateProgress uid p c t)).videos.filter
          (fun w => w.course == courseId) :=
    List.mem_filter.mpr ⟨hmem2, hco⟩
  exact Nat.pos_iff_ne_zero.mp (List.length_pos.mpr (List.ne_nil_of_mem hmem3))

/-- Counterexample of claim C5 as stated: a progress update by a user who is
not enrolled, routed through UserService.updateCourseProgress, mutates the
stored state (the video write precedes the enrollment check) and fails with
status 400, not 403. -/
theorem enrollmentCheck_counterexample :
    (UserService.updateCourseProgress
        ⟨[⟨1, "ana", "ana@x.com", "h", Role.user, true, [], none, none⟩],
         [⟨10, "Pan", "pan", "curso de pan", 2, [], true, 0, []⟩],
         [⟨5, "masa", 10, none, "k5", 1, true, 0, []⟩]⟩ 1 10 5 50 99).1
      = .error { message := "Usuario no matriculado en este curso", statusCode := 400 }
  ∧ (UserService.updateCourseProgress
        ⟨[⟨1, "ana", "ana@x.com", "h", Role.user, true, [], none, none⟩],
         [⟨10, "Pan", "pan", "curso de pan", 2, [], true, 0, []⟩],
         [⟨5, "masa", 10, none, "k5", 1, true, 0, []⟩]⟩ 1 10 5 50 99).2
      ≠ ⟨[⟨1, "ana", "ana@x.com", "h", Role.user, true, [], none, none⟩],
         [⟨10, "Pan", "pan", "curso de pan", 2, [], true, 0, []⟩],
         [⟨5, "masa", 10, none, "k5", 1, true, 0, []⟩]⟩
  ∧ (400 : Nat) ≠ 403 := by
  exact ⟨by decide, by decide, by decide⟩

/-- Claim C5 as amended: through VideoService.updateVideoProgress a
non-enrolled user's update fails with 403 before any write, leaving the state
unchanged; but through UserService.updateCourseProgress the video write
happens first and the non-enrolled user then fails with status 400, the
write remaining in place. -/
theorem enrollmentCheck_amended :
    (∀ (db : DB) (videoId userId : Nat) (p : Int) (now : Nat) (v : Video),
      0 ≤ p → p ≤ 100 →
      db.videos.find? (fun w => w.id == videoId) = some v →
      db.users.find? (fun u => u.id == userId
          && u.enrolledCourses.any (fun e => e.course == v.course)) = none →
      VideoService.updateVideoProgress db videoId userId p now
        = (.error { message := "No tienes acceso a este video", statusCode := 403 }, db))
  ∧ (∀ (db : DB) (userId courseId videoId : Nat) (p : Int) (now : Nat)
       (v : Video) (u : User),
      db.videos.find? (fun w => w.id == videoId && w.course == courseId) = some v →
      db.users.find? (fun w => w.id == userId) = some u →
      u.enrolledCourses.any (fun e => e.course == courseId) = false →
      UserService.updateCourseProgress db userId courseId videoId p now
        = (.error { message := "Usuario no matriculado en este curso", statusCode := 400 },
           db.saveVideo (v.updateProgress userId p (decide (p ≥ 90)) now))) := by
  refine ⟨?_, ?_⟩
  · intro db videoId userId p now v hp1 hp2 hv hnone
    have h1 : ¬(p < 0) := by omega
    have h2 : ¬(p > 100) := by omega
    simp [VideoService.updateVideoProgress, h1, h2, hv, hnone]
  · intro db userId courseId videoId p now v u hv hu hne
    have hlen := saveVideo_filter_course_ne db videoId courseId userId p
      (decide (p ≥ 90)) now v hv
    simp [UserService.updateCourseProgress, hv, hu, hne, hlen]

/-- Fixture of claim C5's amended theorem: video 5 sits in course 10, and
user 1 is enrolled in course 77 only. -/
def dbC5 : DB :=
  { users := [⟨1, "ana", "ana@x.com", "h", Role.user, true,
               [{ course := 77, progress := 0, dateEnrolled := 1, lastAccessed := 1 }],
               none, none⟩],
    courses := [⟨10, "Pan", "pan", "curso de pan", 2, [], true, 0, []⟩],
    videos := [⟨5, "masa", 10, none, "k5", 1, true, 0, []⟩] }

/-- Witness of the amended claim C5 at the fixture. -/
theorem enrollmentCheck_amended_witness :
    (VideoService.updateVideoProgress dbC5 5 1 50 99
      = (.error { message := "No tienes acceso a este video", statusCode := 403 }, dbC5))
  ∧ (UserService.updateCourseProgress dbC5 1 10 5 50 99
      = (.error { message := "Usuario no matriculado en este curso", statusCode := 400 },
         dbC5.saveVideo ((⟨5, "masa", 10, none, "k5", 1, true, 0, []⟩ :
             Video).updateProgress 1 50 (decide ((50 : Int) ≥ 90)) 99))) := by
  refine ⟨?_, ?_⟩
  · exact enrollmentCheck_amended.1 dbC5 5 1 50 99 ⟨5, "masa", 10, none, "k5", 1, true, 0, []⟩
      (by decide) (by decide) (by decide) (by decide)
  · exact enrollmentCheck_amended.2 dbC5 1 10 5 50 99
      ⟨5, "masa", 10, none, "k5", 1, true, 0, []⟩
      ⟨1, "ana", "ana@x.com", "h", Role.user, true,
        [{ course := 77, progress := 0, dateEnrolled := 1, lastAccessed := 1 }], none, none⟩
      (by decide) (by decide) (by decide)

/-! Claim C6: deletion guards. -/

/-- Fixture instructor of claim C6. -/
def uC6 : User := ⟨1, "ins", "ins@x.com", "h", Role.instructor, true, [], none, none⟩

/-- Fixture video of claim C6, carrying a nonempty storage key. -/
def vC6 : Video := ⟨7, "v", 20, none, "k", 1, true, 0, []⟩

/-- Fixture course of claim C6, owned by the instructor, with no enrollments. -/
def cC6 : Course := ⟨20, "T", "t", "curso", 1, [], true, 0, []⟩

/-- Fixture database of claim C6. -/
def dbC6 : DB := ⟨[uC6], [cC6], [vC6]⟩

/-- Counterexample of claim C6 as stated: the unguarded course deletion
deletes the course's video and the course, but triggers no storage-object
release, though the deleted video carried the storage key "k". -/
theorem deletionGuards_counterexample :
    CourseService.deleteCourse dbC6 20 1
      = (.ok true, { users := [uC6], courses := [], videos := [] }, [])
  ∧ dbC6.videos = [vC6]
  ∧ vC6.s3Key = "k"
  ∧ Effect.s3Delete "k" ∉ (CourseService.deleteCourse dbC6 20 1).2.2 := by
  exact ⟨by decide, by decide, by decide, by decide⟩

/-- Claim C6 as amended: deleting a module fails with 400 whenever a video of
the course references it; deleting a course fails with 400 whenever at least
one user enrollment references it; and an unguarded course deletion deletes
every video under the course and then the course itself, performing no
storage-object release (the source leaves S3 cleanup of those videos as a
comment). -/
theorem deletionGuards_amended :
    (∀ (db : DB) (courseId moduleId userId : Nat) (course : Course),
      db.courses.find? (fun c => c.id == courseId) = some course →
      (course.instructor != userId && !isAdminUser db userId) = false →
      db.videos.any (fun v => v.course == courseId && v.moduleRef == some moduleId) = true →
      CourseService.deleteModule db courseId moduleId userId
        = (.error { message := "No se puede eliminar un módulo con videos asociados",
                    statusCode := 400 }, db))
  ∧ (∀ (db : DB) (courseId userId : Nat) (course : Course) (user : User),
      db.courses.find? (fun c => c.id == courseId) = some course →
      db.users.find? (fun u => u.id == userId) = some user →
      (!decide (user.role = Role.admin) && course.instructor != userId) = false →
      0 < db.users.countP (fun u => u.enrolledCourses.any (fun e => e.course == courseId)) →
      CourseService.deleteCourse db courseId userId
        = (.error { message := "No se puede eliminar un curso con estudiantes matriculados",
                    statusCode := 400 }, db, []))
  ∧ (∀ (db : DB) (courseId userId : Nat) (course : Course) (user : User),
      db.courses.find? (fun c => c.id == courseId) = some course →
      db.users.find? (fun u => u.id == userId) = some user →
      (!decide (user.role = Role.admin) && course.instructor != userId) = false →
      db.users.countP (fun u => u.enrolledCourses.any (fun e => e.course == courseId)) = 0 →
      CourseService.deleteCourse db courseId userId
        = (.ok true, { db with videos := db.videos.filter (fun v => v.course != courseId),
                               courses := db.courses.filter (fun c => c.id != courseId) },
           [])) := by
  refine ⟨?_, ?_, ?_⟩
  · intro db courseId moduleId userId course hc hperm hvid
    simp [CourseService.deleteModule, hc, hperm, hvid]
  · intro db courseId userId course user hc hu hperm hcnt
    simp [CourseService.deleteCourse, hc, hu, hperm, hcnt, Nat.pos_iff_ne_zero.mp hcnt]
  · intro db courseId userId course user hc hu hperm hcnt
    simp [CourseService.deleteCourse, hc, hu, hperm, hcnt]

/-- Fixture of the guarded cases of claim C6: course 21 holds module 3,
video 8 references that module, and user 9 is enrolled in course 21. -/
def dbC6g : DB :=
  ⟨[uC6, ⟨9, "alu", "alu@x.com", "h", Role.user, true,
     [{ course := 21, progress := 0, dateEnrolled := 1, lastAccessed := 1 }], none, none⟩],
   [⟨21, "U", "u", "curso", 1, [⟨3, "m", "", 1⟩], true, 1, []⟩],
   [⟨8, "w", 21, some 3, "k8", 1, true, 0, []⟩]⟩

/-- Witness of the amended claim C6: both guards fire with 400 at the guarded
fixture, and the unguarded deletion at the other fixture removes video and
course with an empty effect list. -/
theorem deletionGuards_amended_witness :
    (CourseService.deleteModule dbC6g 21 3 1
      = (.error { message := "No se puede eliminar un módulo con videos asociados",
                  statusCode := 400 }, dbC6g))
  ∧ (CourseService.deleteCourse dbC6g 21 1
      = (.error { message := "No se puede eliminar un curso con estudiantes matriculados",
                  statusCode := 400 }, dbC6g, []))
  ∧ (CourseService.deleteCourse dbC6 20 1
      = (.ok true, { dbC6 with videos := dbC6.videos.filter (fun v => v.course != 20),
                               courses := dbC6.courses.filter (fun c => c.id != 20) }, [])) := by
  refine ⟨?_, ?_, ?_⟩
  · exact deletionGuards_amended.1 dbC6g 21 3 1 ⟨21, "U", "u", "curso", 1, [⟨3, "m", "", 1⟩], true, 1, []⟩
      (by decide) (by decide) (by decide)
  · exact deletionGuards_amended.2.1 dbC6g 21 1 ⟨21, "U", "u", "curso", 1, [⟨3, "m", "", 1⟩], true, 1, []⟩
      uC6 (by decide) (by decide) (by decide) (by decide)
  · exact deletionGuards_amended.2.2 dbC6 20 1 cC6 uC6
      (by decide) (by decide) (by decide) (by decide)

/-! Claim C1: course-progress recomputation. -/

/-- Fixture refuting claim C1's round-half-up wording: a course of 40 videos
of which user 1 has completed the first 23. -/
def dbC1x : DB :=
  { users := [⟨1, "ana", "ana@x.com", "h", Role.user, true,
               [{ course := 10, progress := 0, dateEnrolled := 1, lastAccessed := 1 }],
               none, none⟩],
    courses := [⟨10, "Pan", "pan", "curso de pan", 2, [], true, 1, []⟩],
    videos := (List.range 40).map (fun i =>
      ⟨100 + i, "v", 10, none, "k", 1, true, 0,
       [⟨1, 1, if i < 23 then (100 : Int) else 10, decide (i < 23)⟩]⟩) }

/-- Counterexample of claim C1 as stated: with 23 of 40 videos completed the
program stores course progress 57 — Math.round of the IEEE-double value
57.49999999999999289… — while round-half-up of the exact rational 57.5
demands 58, so the claimed round-half-up property fails at this reachable
input. -/
theorem progressRounding_counterexample :
    (UserService.updateCourseProgress dbC1x 1 10 100 95 42).1
      = .ok { videoProgress := 95, videoCompleted := true, courseProgress := 57,
              completedVideos := 23, totalVideos := 40 }
  ∧ (UserService.updateCourseProgress dbC1x 1 10 100 95 42).2.users
      = [⟨1, "ana", "ana@x.com", "h", Role.user, true,
          [{ course := 10, progress := 57, dateEnrolled := 1, lastAccessed := 42 }],
          none, none⟩]
  ∧ roundHalfUpPct 23 40 = 58
  ∧ (57 : Nat) ≠ 58 := by
  exact ⟨by decide, by decide, by decide, by decide⟩

/-- Claim C1 as amended: recomputing course progress after a video-progress
update recounts over every video of the course; when the course has no
videos the operation fails with status 404; otherwise the user's enrollment
entry stores exactly Math.round of the IEEE binary64 evaluation of
(completedCount / totalVideos) * 100 — which agrees with exact round-half-up
except where the double roundings land the product on the other side of a
half-integer, as at 23 of 40 — where completedCount counts the course's
videos holding a completed view-history entry of that user in the resulting
state, and the entry's last-accessed timestamp is refreshed to the current
time. -/
theorem updateCourseProgress_spec :
    (∀ (db : DB) (userId courseId videoId : Nat) (p : Int) (now : Nat)
       (v : Video) (u : User),
      db.videos.find? (fun w => w.id == videoId && w.course == courseId) = some v →
      db.users.find? (fun w => w.id == userId) = some u →
      u.enrolledCourses.any (fun e => e.course == courseId) = true →
      ∃ r db2, UserService.updateCourseProgress db userId courseId videoId p now = (.ok r, db2)
        ∧ r.totalVideos = (db2.videos.filter (fun w => w.course == courseId)).length
        ∧ r.completedVideos = (db2.videos.filter (fun w => w.course == courseId)).countP
            (fun w => userHasCompletedView userId w)
        ∧ r.courseProgress = jsRoundPct r.completedVideos r.totalVideos
        ∧ ∃ u2, db2.users.find? (fun w => w.id == userId) = some u2
            ∧ ∃ e ∈ u2.enrolledCourses,
                e.course = courseId ∧ e.progress = r.courseProgress ∧ e.lastAccessed = now)
  ∧ (∀ (db : DB) (userId courseId videoId : Nat) (p : Int) (now : Nat),
      db.videos.filter (fun w => w.course == courseId) = [] →
      ∃ err, (UserService.updateCourseProgress db userId courseId videoId p now).1 = .error err
        ∧ err.statusCode = 404) := by
  refine ⟨?_, ?_⟩
  · intro db userId courseId videoId p now v u hv hu he
    have hlen := saveVideo_filter_course_ne db videoId courseId userId p
      (decide (p ≥ 90)) now v hv
    have hu1 : (db.saveVideo (v.updateProgress userId p (decide (p ≥ 90)) now)).users.find?
        (fun w => w.id == userId) = some u := hu
    have hufound := List.find?_some hu
    simp only [UserService.updateCourseProgress, hv, hu1, hlen, he, if_true, if_false,
      ite_false, ite_true]
    refine ⟨_, _, rfl, rfl, rfl, rfl, ?_⟩
    refine ⟨_, find?_map_replace User.id (fun w => w.id == userId) u _ db.users hu rfl hufound, ?_⟩
    exact updateEnrollment_mem u.enrolledCourses courseId _ now he
  · intro db userId courseId videoId p now hempty
    cases hfind : db.videos.find? (fun w => w.id == videoId && w.course == courseId) with
    | none =>
      refine ⟨{ message := "Video no encontrado para este curso", statusCode := 404 }, ?_, rfl⟩
      simp [UserService.updateCourseProgress, hfind]
    | some v =>
      exfalso
      have hmem : v ∈ db.videos := List.mem_of_find?_eq_some hfind
      have hpred := List.find?_some hfind
      have hco : (v.course == courseId) = true := (Bool.and_eq_true_iff.mp hpred).2
      have : v ∈ db.videos.filter (fun w => w.course == courseId) :=
        List.mem_filter.mpr ⟨hmem, hco⟩
      rw [hempty] at this
      cases this

/-- Fixture of claim C1: user 1 enrolled in course 10, which has two
published videos; the user completes video 5 only, so the recount yields
round(1/2*100) = 50. -/
def dbC1 : DB :=
  { users := [⟨1, "ana", "ana@x.com", "h", Role.user, true,
               [{ course := 10, progress := 0, dateEnrolled := 1, lastAccessed := 1 }],
               none, none⟩],
    courses := [⟨10, "Pan", "pan", "curso de pan", 2, [], true, 1, []⟩],
    videos := [⟨5, "masa", 10, none, "k5", 1, true, 0, []⟩,
               ⟨6, "horno", 10, none, "k6", 2, true, 0, []⟩] }

/-- Witness of claim C1 at the fixture: completing one of two videos stores
progress 50 with the refreshed timestamp, and a course without videos yields
status 404. -/
theorem updateCourseProgress_spec_witness :
    (∃ r db2, UserService.updateCourseProgress dbC1 1 10 5 95 42 = (.ok r, db2)
      ∧ r.totalVideos = (db2.videos.filter (fun w => w.course == 10)).length
      ∧ r.completedVideos = (db2.videos.filter (fun w => w.course == 10)).countP
          (fun w => userHasCompletedView 1 w)
      ∧ r.courseProgress = jsRoundPct r.completedVideos r.totalVideos
      ∧ ∃ u2, db2.users.find? (fun w => w.id == 1) = some u2
          ∧ ∃ e ∈ u2.enrolledCourses, e.course = 10 ∧ e.progress = r.courseProgress
              ∧ e.lastAccessed = 42)
  ∧ (∃ err, (UserService.updateCourseProgress dbC1 1 77 5 95 42).1 = .error err
      ∧ err.statusCode = 404) := by
  refine ⟨?_, ?_⟩
  · exact updateCourseProgress_spec.1 dbC1 1 10 5 95 42
      ⟨5, "masa", 10, none, "k5", 1, true, 0, []⟩
      ⟨1, "ana", "ana@x.com", "h", Role.user, true,
        [{ course := 10, progress := 0, dateEnrolled := 1, lastAccessed := 1 }], none, none⟩
      (by decide) (by decide) (by decide)
  · exact updateCourseProgress_spec.2 dbC1 1 77 5 95 42 (by decide)

/-! Claim C3: idempotence of progress submission. -/

/-- Timestamps do not influence the recount: replacing the written video with
a copy written at a different time changes neither the number of course
videos nor the number counted as completed. -/
theorem replace_time_indep (l : List Video) (v : Video) (uid cid : Nat)
    (p : Int) (c : Bool) (t1 t2 : Nat) :
    (((l.map (fun w => if w.id == v.id then v.updateProgress uid p c t1 else w)).filter
        (fun w => w.course == cid)).length
      = ((l.map (fun w => if w.id == v.id then v.updateProgress uid p c t2 else w)).filter
        (fun w => w.course == cid)).length)
  ∧ (((l.map (fun w => if w.id == v.id then v.updateProgress uid p c t1 else w)).filter
        (fun w => w.course == cid)).countP (fun w => userHasCompletedView uid w)
      = ((l.map (fun w => if w.id == v.id then v.updateProgress uid p c t2 else w)).filter
        (fun w => w.course == cid)).countP (fun w => userHasCompletedView uid w)) := by
  induction l with
  | nil => exact ⟨rfl, rfl⟩
  | cons x xs ih =>
    simp only [List.map_cons, List.filter_cons]
    by_cases hk : x.id == v.id
    · simp only [hk, if_pos, updateProgress_course]
      by_cases hco : (v.course == cid)
      · simp only [hco, if_pos, List.length_cons, List.countP_cons]
        constructor
        · rw [ih.1]
        · rw [ih.2]
          have hany := any_completed_upsert_date v.viewHistory uid uid p c t1 t2
          simp only [userHasCompletedView, updateProgress_viewHistory, hany]
      · simp only [hco, Bool.false_eq_true, if_neg, ite_false]
        exact ih
    · simp only [hk, Bool.false_eq_true, if_neg, ite_false]
      by_cases hco : (x.course == cid)
      · simp only [hco, if_pos, List.length_cons, List.countP_cons]
        exact ⟨by rw [ih.1], by rw [ih.2]⟩
      · simp only [hco, Bool.false_eq_true, if_neg, ite_false]
        exact ih

/-- Result independence from the clock: the returned value of the
course-progress update (though not the stored timestamps) is the same
whatever current time the call observes. -/
theorem updateCourseProgress_fst_time (db : DB) (userId courseId videoId : Nat)
    (p : Int) (t1 t2 : Nat) :
    (UserService.updateCourseProgress db userId courseId videoId p t1).1
      = (UserService.updateCourseProgress db userId courseId videoId p t2).1 := by
  cases hv : db.videos.find? (fun w => w.id == videoId && w.course == courseId) with
  | none => simp [UserService.updateCourseProgress, hv]
  | some v =>
    obtain ⟨hlen, hcnt⟩ := replace_time_indep db.videos v userId courseId p
      (decide (p ≥ 90)) t1 t2
    cases hu : db.users.find? (fun w => w.id == userId) with
    | none => simp [UserService.updateCourseProgress, hv, hu]
    | some u =>
      simp only [UserService.updateCourseProgress, hv, hu, saveVideo_users, DB.saveVideo,
        updateProgress_id, apply_ite Prod.fst]
      rw [hlen, hcnt]

/-- Re-updating a just-updated video with the same progress collapses to the
single later update. -/
theorem updateProgress_updateProgress (v : Video) (uid : Nat) (p : Int)
    (c : Bool) (t1 t2 : Nat) :
    (v.updateProgress uid p c t1).updateProgress uid p c t2
      = v.updateProgress uid p c t2 := by
  simp [Video.updateProgress, upsertView_upsertView]

/-- Submitting the same video progress twice in a row is the same call as
submitting it once: the second call returns the same value and leaves the
same state as a single submission observed at the later time. -/
theorem updateVideoProgress_idem (db : DB) (videoId userId : Nat) (p : Int)
    (t1 t2 : Nat) :
    VideoService.updateVideoProgress
        (VideoService.updateVideoProgress db videoId userId p t1).2 videoId userId p t2
      = VideoService.updateVideoProgress db videoId userId p t2 := by
  cases hcond : (decide (p < 0) || decide (p > 100)) with
  | true => simp [VideoService.updateVideoProgress, hcond]
  | false =>
    cases hv : db.videos.find? (fun w => w.id == videoId) with
    | none => simp [VideoService.updateVideoProgress, hcond, hv]
    | some v =>
      cases hu : db.users.find? (fun w => w.id == userId
          && w.enrolledCourses.any (fun e => e.course == v.course)) with
      | none => simp [VideoService.updateVideoProgress, hcond, hv, hu]
      | some u =>
        have hfind1 : (db.saveVideo (v.updateProgress userId p (decide (p ≥ 90)) t1)).videos.find?
            (fun w => w.id == videoId)
              = some (v.updateProgress userId p (decide (p ≥ 90)) t1) := by
          have hpv := List.find?_some hv
          exact find?_map_replace Video.id (fun w => w.id == videoId) v
            (v.updateProgress userId p (decide (p ≥ 90)) t1) db.videos hv rfl hpv
        simp only [VideoService.updateVideoProgress, hcond, hv, hu, hfind1,
          saveVideo_users, updateProgress_course, Bool.false_eq_true, ite_false]
        rw [updateProgress_updateProgress,
          saveVideo_saveVideo db (v.updateProgress userId p (decide (p ≥ 90)) t1)
            (v.updateProgress userId p (decide (p ≥ 90)) t2) rfl]

/-- Re-running the combined video-write plus course-progress recomputation
with the same progress value collapses to the single later run: the second
call both returns and stores exactly what a single submission observed at the
later time would. -/
theorem updateCourseProgress_idem (db : DB) (userId courseId videoId : Nat)
    (p : Int) (t1 t2 : Nat) :
    UserService.updateCourseProgress
        (UserService.updateCourseProgress db userId courseId videoId p t1).2
        userId courseId videoId p t2
      = UserService.updateCourseProgress db userId courseId videoId p t2 := by
  cases hv : db.videos.find? (fun w => w.id == videoId && w.course == courseId) with
  | none => simp [UserService.updateCourseProgress, hv]
  | some v =>
    have hpv := List.find?_some hv
    have hfind1 : (db.saveVideo (v.updateProgress userId p (decide (p ≥ 90)) t1)).videos.find?
        (fun w => w.id == videoId && w.course == courseId)
          = some (v.updateProgress userId p (decide (p ≥ 90)) t1) :=
      find?_map_replace Video.id (fun w => w.id == videoId && w.course == courseId) v
        (v.updateProgress userId p (decide (p ≥ 90)) t1) db.videos hv rfl hpv
    cases hu : db.users.find? (fun w => w.id == userId) with
    | none =>
      simp only [UserService.updateCourseProgress, hv, hu, hfind1, saveVideo_users]
      rw [updateProgress_updateProgress,
        saveVideo_saveVideo db (v.updateProgress userId p (decide (p ≥ 90)) t1)
          (v.updateProgress userId p (decide (p ≥ 90)) t2) rfl]
    | some u =>
      have hpu := List.find?_some hu
      have hne1 := saveVideo_filter_course_ne db videoId courseId userId p
        (decide (p ≥ 90)) t1 v hv
      have hne2 := saveVideo_filter_course_ne db videoId courseId userId p
        (decide (p ≥ 90)) t2 v hv
      have hneL := saveVideo_filter_course_ne
        (db.saveVideo (v.updateProgress userId p (decide (p ≥ 90)) t1)) videoId courseId
        userId p (decide (p ≥ 90)) t2
        (v.updateProgress userId p (decide (p ≥ 90)) t1) hfind1
      cases hany : u.enrolledCourses.any (fun e => e.course == courseId) with
      | false =>
        simp only [UserService.updateCourseProgress, hv, hu, hfind1, saveVideo_users,
          hne1, hne2, hneL, hany, Bool.false_eq_true, if_false, if_true]
        rw [updateProgress_updateProgress,
          saveVideo_saveVideo db (v.updateProgress userId p (decide (p ≥ 90)) t1)
            (v.updateProgress userId p (decide (p ≥ 90)) t2) rfl]
      | true =>
        have hufind2 : ∀ (L : List Enrollment),
            ((db.saveVideo (v.updateProgress userId p (decide (p ≥ 90)) t1)).saveUser
                { u with enrolledCourses := L }).users.find? (fun w => w.id == userId)
              = some { u with enrolledCourses := L } := by
          intro L
          exact find?_map_replace User.id (fun w => w.id == userId) u
            { u with enrolledCourses := L } db.users hu rfl hpu
        have hneLL : ∀ (u2 : User),
            ((((db.saveVideo (v.updateProgress userId p (decide (p ≥ 90)) t1)).saveUser
                u2).saveVideo ((v.updateProgress userId p (decide (p ≥ 90))
                t1).updateProgress userId p (decide (p ≥ 90)) t2)).videos.filter
              (fun w => w.course == courseId)).length ≠ 0 := by
          intro u2
          exact saveVideo_filter_course_ne
            ((db.saveVideo (v.updateProgress userId p (decide (p ≥ 90)) t1)).saveUser u2)
            videoId courseId userId p (decide (p ≥ 90)) t2
            (v.updateProgress userId p (decide (p ≥ 90)) t1) hfind1
        simp only [UserService.updateCourseProgress, hv, hu, hfind1, hufind2,
          saveVideo_users, saveUser_videos, hne1, hne2, hneL, hneLL, hany,
          updateEnrollment_any_course, if_false, if_true]
        rw [updateProgress_updateProgress]
        rw [saveUser_saveVideo_comm]
        rw [saveVideo_saveVideo db (v.updateProgress userId p (decide (p ≥ 90)) t1)
          (v.updateProgress userId p (decide (p ≥ 90)) t2) rfl]
        simp only [saveUser_videos, updateEnrollment_updateEnrollment]
        rw [saveUser_saveUser]
        exact rfl

/-- Claim C3: submitting the same progress value twice in a row for the same
user and video produces the same stored state and the same result as
submitting it once (no double counting), through the video-progress endpoint
as well as through the combined course-progress recomputation; and
recomputing course progress twice with no intervening change returns the
same value both times. -/
theorem progress_idempotent :
    (∀ (db : DB) (videoId userId : Nat) (p : Int) (t1 t2 : Nat),
      VideoService.updateVideoProgress
          (VideoService.updateVideoProgress db videoId userId p t1).2 videoId userId p t2
        = VideoService.updateVideoProgress db videoId userId p t2)
  ∧ (∀ (db : DB) (userId courseId videoId : Nat) (p : Int) (t1 t2 : Nat),
      UserService.updateCourseProgress
          (UserService.updateCourseProgress db userId courseId videoId p t1).2
          userId courseId videoId p t2
        = UserService.updateCourseProgress db userId courseId videoId p t2)
  ∧ (∀ (db : DB) (userId courseId videoId : Nat) (p : Int) (t1 t2 : Nat),
      (UserService.updateCourseProgress
          (UserService.updateCourseProgress db userId courseId videoId p t1).2
          userId courseId videoId p t2).1
        = (UserService.updateCourseProgress db userId courseId videoId p t1).1) := by
  refine ⟨updateVideoProgress_idem, updateCourseProgress_idem, ?_⟩
  intro db userId courseId videoId p t1 t2
  rw [updateCourseProgress_idem]
  exact (updateCourseProgress_fst_time db userId courseId videoId p t1 t2).symm

end Panatri
